import Mathlib

/-
Verification of the CogniTriage frontend job lifecycle and result
aggregation pipeline (cognitriage-frontend).  The definitions below are a
shallow embedding of:
  - src/context/AppContext.tsx  (PatientData, AnalysisResult, the
    spread-merge setters setPatientData / setAnalysisResult, initial values)
  - src/pages/Dashboard.tsx     (canSubmit, startSubmit, and the polling
    useEffect with its interval timer and in-flight fetches)
Opaque JSON payload values (triage, note, citations, trials,
treatment_recommendations) are modelled as Nat; File objects as their names
(String); job identifiers as String.  A JS field holding null / "" / [] in
the initial store is modelled as the unset Option value none.
-/

namespace CogniTriage

/-- Status payload returned by GET /api/status/(job_id):
a record with a status string ("queued", "running", "completed", "failed")
and a progress number (Dashboard.tsx line 133, spec section 3 JobStatus). -/
structure JobStatus where
  status : String
  progress : Nat
deriving Repr, DecidableEq

/-- Result document returned by GET /api/result/(job_id) as the field
resultResp.result; the aggregation step extracts the five named sub-fields
(Dashboard.tsx lines 140-147).  The payloads are opaque; each is modelled
as a Nat so that documents from different jobs can be told apart. -/
structure ResultDoc where
  triage : Nat
  note : Nat
  citations : Nat
  trials : Nat
  treatment_recommendations : Nat
deriving Repr, DecidableEq

/-- The AnalysisResult store (AppContext.tsx lines 10-19).  jobId is
string-or-null; status / result / derived fields are nullable payloads. -/
structure AnalysisResult where
  jobId : Option String
  status : Option JobStatus
  result : Option ResultDoc
  triage : Option Nat
  note : Option Nat
  citations : Option Nat
  trials : Option Nat
  treatment_recommendations : Option Nat
deriving Repr, DecidableEq

/-- A TypeScript Partial of AnalysisResult: an outer none means the key is
absent from the object literal (so the spread merge keeps the old value);
some v means the key is present with value v (v itself may be the null
value, i.e. the inner none). -/
structure AnalysisPatch where
  jobId : Option (Option String) := none
  status : Option (Option JobStatus) := none
  result : Option (Option ResultDoc) := none
  triage : Option (Option Nat) := none
  note : Option (Option Nat) := none
  citations : Option (Option Nat) := none
  trials : Option (Option Nat) := none
  treatment_recommendations : Option (Option Nat) := none
deriving Repr, DecidableEq

/-- setAnalysisResult (AppContext.tsx lines 59-61):
prev => (spread of prev, then spread of the update object), i.e. every key
present in the update replaces the previous value, every other key is
kept. -/
def setAnalysisResult (prev : AnalysisResult) (r : AnalysisPatch) : AnalysisResult :=
  { jobId := r.jobId.getD prev.jobId
  , status := r.status.getD prev.status
  , result := r.result.getD prev.result
  , triage := r.triage.getD prev.triage
  , note := r.note.getD prev.note
  , citations := r.citations.getD prev.citations
  , trials := r.trials.getD prev.trials
  , treatment_recommendations := r.treatment_recommendations.getD prev.treatment_recommendations }

/-- PatientData (AppContext.tsx lines 3-8): age and moca are number-or-""
(the empty string meaning unset, modelled as none), sex a string, files a
list of File objects (modelled by file name). -/
structure PatientData where
  age : Option Int
  moca : Option Int
  sex : String
  files : List String
deriving Repr, DecidableEq

/-- A TypeScript Partial of PatientData, same key-present convention as
AnalysisPatch. -/
structure PatientPatch where
  age : Option (Option Int) := none
  moca : Option (Option Int) := none
  sex : Option String := none
  files : Option (List String) := none
deriving Repr, DecidableEq

/-- setPatientData (AppContext.tsx lines 55-57): the same spread merge as
setAnalysisResult, on PatientData. -/
def setPatientData (prev : PatientData) (d : PatientPatch) : PatientData :=
  { age := d.age.getD prev.age
  , moca := d.moca.getD prev.moca
  , sex := d.sex.getD prev.sex
  , files := d.files.getD prev.files }

/-- initialPatientData (AppContext.tsx lines 33-38). -/
def initialPatientData : PatientData :=
  { age := none, moca := none, sex := "F", files := [] }

/-- initialAnalysisResult (AppContext.tsx lines 40-49); the initial null
and empty-array values are modelled as unset (none). -/
def initialAnalysisResult : AnalysisResult :=
  { jobId := none, status := none, result := none, triage := none
  , note := none, citations := none, trials := none
  , treatment_recommendations := none }

/-- canSubmit (Dashboard.tsx lines 92-97):
hasFiles and mocaValid and ageValid, where mocaValid is 0 <= moca <= 30
when moca is a number and true otherwise, and ageValid is age > 0 when age
is a number and true otherwise. -/
def canSubmit (pd : PatientData) : Bool :=
  let hasFiles := decide (0 < pd.files.length)
  let mocaValid :=
    match pd.moca with
    | some m => decide (0 ≤ m) && decide (m ≤ 30)
    | none => true
  let ageValid :=
    match pd.age with
    | some a => decide (0 < a)
    | none => true
  hasFiles && mocaValid && ageValid

/-- The multipart form body built by startSubmit (Dashboard.tsx lines
104-110): the files array, the moca JSON object with its total field, and
the meta JSON object with age and sex. -/
structure SubmitPayload where
  files : List String
  mocaTotal : Int
  metaAge : Int
  metaSex : String
deriving Repr, DecidableEq

/-- buildPayload: mocaVal defaults a non-numeric moca to 24, ageVal
defaults a non-numeric age to 70 (Dashboard.tsx lines 104-110). -/
def buildPayload (pd : PatientData) : SubmitPayload :=
  { files := pd.files
  , mocaTotal := pd.moca.getD 24
  , metaAge := pd.age.getD 70
  , metaSex := pd.sex }

/-- Outcome of the POST /api/submit request: either a job_id, or a network
error / non-ok HTTP status (both land in the same catch block,
Dashboard.tsx lines 116-124). -/
inductive SubmitOutcome where
  | ok (jobId : String)
  | httpError
deriving Repr, DecidableEq

/-- Result of running startSubmit: the store afterwards, and the list of
create-job requests that were issued. -/
structure SubmitResult where
  store : AnalysisResult
  requests : List SubmitPayload
deriving Repr, DecidableEq

/-- The clearing update issued before submitting (Dashboard.tsx line 101
and the demo flows): jobId, status and result are set to null; no other
key appears in the object literal. -/
def clearPatch : AnalysisPatch :=
  { jobId := some none, status := some none, result := some none }

/-- startSubmit (Dashboard.tsx lines 99-125): return immediately when the
guard fails; otherwise clear jobId/status/result, issue one create-job
request with the built payload, and on success write the returned job_id;
on failure the error is caught (and logged) and nothing further is
written.  No retry is issued on either path. -/
def startSubmit (pd : PatientData) (store : AnalysisResult)
    (outcome : SubmitOutcome) : SubmitResult :=
  if !(canSubmit pd) then
    { store := store, requests := [] }
  else
    let cleared := setAnalysisResult store clearPatch
    match outcome with
    | SubmitOutcome.ok j =>
        { store := setAnalysisResult cleared { jobId := some (some j) }
        , requests := [buildPayload pd] }
    | SubmitOutcome.httpError =>
        { store := cleared, requests := [buildPayload pd] }

/-- Runtime state of the polling pipeline (the useEffect of Dashboard.tsx
lines 127-167 together with the browser event loop):
  - store: the shared AnalysisResult store;
  - intervalJob: the active interval timer (pollRef.current) together with
    the jobId captured by the poll closure it invokes; none when no timer
    is active;
  - pendingStatus / pendingResult: in-flight GET /api/status/(j) and
    GET /api/result/(j) requests, each tagged with the closure jobId j it
    was issued for;
  - statusLog / resultLog / mergeLog: histories of all status requests
    issued, all result (aggregation) fetches issued, and all aggregation
    merges applied to the store, each recording the jobId. -/
structure SessionState where
  store : AnalysisResult
  intervalJob : Option String
  pendingStatus : List String
  pendingResult : List String
  statusLog : List String
  resultLog : List String
  mergeLog : List String
deriving Repr, DecidableEq

/-- Events the event loop can deliver to the polling pipeline:
a timer tick, arrival (or network failure) of a status or result response
for the request issued for job j, and a successful submission of a new job
(startSubmit clearing the store, the ok response writing the new job_id,
and the useEffect reacting to the jobId change by clearing the previous
interval, issuing one immediate poll and starting a new interval,
Dashboard.tsx lines 99-125 and 127-167). -/
inductive Event where
  | tick
  | statusArrive (j : String) (st : JobStatus)
  | statusFail (j : String)
  | resultArrive (j : String) (doc : ResultDoc)
  | resultFail (j : String)
  | newJob (j : String)
deriving Repr, DecidableEq

/-- The single store write performed by the aggregation step
(Dashboard.tsx lines 140-147): result plus the five extracted sub-fields,
in one object literal. -/
def aggregatePatch (doc : ResultDoc) : AnalysisPatch :=
  { result := some (some doc)
  , triage := some (some doc.triage)
  , note := some (some doc.note)
  , citations := some (some doc.citations)
  , trials := some (some doc.trials)
  , treatment_recommendations := some (some doc.treatment_recommendations) }

/-- One step of the polling pipeline (Dashboard.tsx lines 127-167).
  - tick: when an interval is active, its poll closure issues a status
    request for the captured jobId (line 133 / 159).
  - statusArrive j st: the poll closure writes the status into the store
    unconditionally (line 134: there is no comparison of j against the
    store's current jobId); when st.status is "completed" it then issues a
    result fetch for j (line 137).
  - statusFail: the catch block only logs (lines 153-155).
  - resultArrive j doc: the closure merges result plus the five derived
    fields in one store write (lines 140-147), again without comparing j
    to the store's current jobId, then clears whatever interval pollRef
    currently holds (lines 148-151).
  - resultFail: the catch block only logs; the interval is not cleared.
  - newJob j: a successful submission: the store is cleared
    (jobId/status/result) and the new job_id written; the jobId change
    makes the useEffect cleanup clear the previous interval and the new
    effect run one immediate poll and start a fresh interval for j
    (lines 158-166).
A response event for a request that is not in flight is a no-op. -/
def step (s : SessionState) (e : Event) : SessionState :=
  match e with
  | Event.tick =>
      match s.intervalJob with
      | none => s
      | some j =>
          { s with pendingStatus := s.pendingStatus ++ [j]
                 , statusLog := s.statusLog ++ [j] }
  | Event.statusArrive j st =>
      if j ∈ s.pendingStatus then
        if st.status = "completed" then
          { s with pendingStatus := s.pendingStatus.erase j
                 , store := setAnalysisResult s.store { status := some (some st) }
                 , pendingResult := s.pendingResult ++ [j]
                 , resultLog := s.resultLog ++ [j] }
        else
          { s with pendingStatus := s.pendingStatus.erase j
                 , store := setAnalysisResult s.store { status := some (some st) } }
      else s
  | Event.statusFail j =>
      if j ∈ s.pendingStatus then
        { s with pendingStatus := s.pendingStatus.erase j }
      else s
  | Event.resultArrive j doc =>
      if j ∈ s.pendingResult then
        { s with pendingResult := s.pendingResult.erase j
               , store := setAnalysisResult s.store (aggregatePatch doc)
               , mergeLog := s.mergeLog ++ [j]
               , intervalJob := none }
      else s
  | Event.resultFail j =>
      if j ∈ s.pendingResult then
        { s with pendingResult := s.pendingResult.erase j }
      else s
  | Event.newJob j =>
      { s with store := setAnalysisResult
                          (setAnalysisResult s.store clearPatch)
                          { jobId := some (some j) }
             , intervalJob := some j
             , pendingStatus := s.pendingStatus ++ [j]
             , statusLog := s.statusLog ++ [j] }

/-- Run the pipeline over a list of event-loop events. -/
def run (s : SessionState) (evs : List Event) : SessionState :=
  evs.foldl step s

/-- State at session start: empty store, no timer, nothing in flight. -/
def initialSession : SessionState :=
  { store := initialAnalysisResult
  , intervalJob := none
  , pendingStatus := []
  , pendingResult := []
  , statusLog := []
  , resultLog := []
  , mergeLog := [] }

/-- A sequence of non-terminal polling rounds for job j: each round is the
arrival of a (non-completed) status response followed by the next interval
tick issuing the next status request. -/
def nonTerminalRounds (j : String) : List JobStatus → List Event
  | [] => []
  | st :: rest =>
      Event.statusArrive j st :: Event.tick :: nonTerminalRounds j rest

/-- The derived-field consistency property of an AnalysisResult store:
whenever result holds a document, the five derived fields hold exactly
that document's sub-fields. -/
def derivedMatch (st : AnalysisResult) : Prop :=
  ∀ doc, st.result = some doc →
    st.triage = some doc.triage ∧ st.note = some doc.note ∧
    st.citations = some doc.citations ∧ st.trials = some doc.trials ∧
    st.treatment_recommendations = some doc.treatment_recommendations

theorem getD_getD {α : Type} (o : Option α) (x : α) :
    o.getD (o.getD x) = o.getD x := by
  cases o <;> rfl

theorem run_cons (s : SessionState) (e : Event) (evs : List Event) :
    run s (e :: evs) = run (step s e) evs := rfl

theorem run_nil (s : SessionState) : run s [] = s := rfl

theorem run_append (s : SessionState) (a b : List Event) :
    run s (a ++ b) = run (run s a) b := by
  simp [run, List.foldl_append]

/-- Claim C5: canSubmit is true iff at least one file is present AND
(moca unset OR 0 <= moca <= 30) AND (age unset OR age > 0); the listed
examples evaluate as stated; and when the guard fails, startSubmit returns
without touching the store and without issuing any request. -/
theorem c5_canSubmit_guard (pd : PatientData) (s : AnalysisResult) (o : SubmitOutcome) :
    (canSubmit pd = true ↔
      (0 < pd.files.length ∧ (∀ m, pd.moca = some m → 0 ≤ m ∧ m ≤ 30) ∧
       (∀ a, pd.age = some a → 0 < a))) ∧
    (canSubmit pd = false → startSubmit pd s o = { store := s, requests := [] }) ∧
    canSubmit ⟨none, some 35, "F", ["f"]⟩ = false ∧
    canSubmit ⟨some 72, some 24, "F", ["f"]⟩ = true := by
  refine ⟨?_, ?_, by decide, by decide⟩
  · rcases pd with ⟨age, moca, sex, files⟩
    cases moca <;> cases age <;> simp [canSubmit, and_assoc]
  · intro h
    simp [startSubmit, h]

/-- Claim C5 witness: a concrete patient record violating the guard
(moca = 35) leaves the store untouched and issues no request. -/
theorem c5_canSubmit_guard_witness :
    startSubmit ⟨none, some 35, "F", ["f"]⟩ initialAnalysisResult SubmitOutcome.httpError
      = { store := initialAnalysisResult, requests := [] } :=
  (c5_canSubmit_guard ⟨none, some 35, "F", ["f"]⟩ initialAnalysisResult
    SubmitOutcome.httpError).2.1 (by decide)

/-- Claim C7: the store merge replaces exactly the keys present in the
update object and leaves every other field unchanged; in particular
merging a triage update into a store holding note and trials yields that
store with only triage replaced. -/
theorem c7_merge_replaces_only_named_keys (s : AnalysisResult) (r : AnalysisPatch) :
    ((r.jobId = none → (setAnalysisResult s r).jobId = s.jobId) ∧
     (∀ v, r.jobId = some v → (setAnalysisResult s r).jobId = v)) ∧
    ((r.status = none → (setAnalysisResult s r).status = s.status) ∧
     (∀ v, r.status = some v → (setAnalysisResult s r).status = v)) ∧
    ((r.result = none → (setAnalysisResult s r).result = s.result) ∧
     (∀ v, r.result = some v → (setAnalysisResult s r).result = v)) ∧
    ((r.triage = none → (setAnalysisResult s r).triage = s.triage) ∧
     (∀ v, r.triage = some v → (setAnalysisResult s r).triage = v)) ∧
    ((r.note = none → (setAnalysisResult s r).note = s.note) ∧
     (∀ v, r.note = some v → (setAnalysisResult s r).note = v)) ∧
    ((r.citations = none → (setAnalysisResult s r).citations = s.citations) ∧
     (∀ v, r.citations = some v → (setAnalysisResult s r).citations = v)) ∧
    ((r.trials = none → (setAnalysisResult s r).trials = s.trials) ∧
     (∀ v, r.trials = some v → (setAnalysisResult s r).trials = v)) ∧
    ((r.treatment_recommendations = none →
        (setAnalysisResult s r).treatment_recommendations = s.treatment_recommendations) ∧
     (∀ v, r.treatment_recommendations = some v →
        (setAnalysisResult s r).treatment_recommendations = v)) ∧
    setAnalysisResult ⟨none, none, none, none, some 7, none, some 8, none⟩
        { triage := some (some 3) }
      = ⟨none, none, none, some 3, some 7, none, some 8, none⟩ := by
  refine ⟨⟨?_, ?_⟩, ⟨?_, ?_⟩, ⟨?_, ?_⟩, ⟨?_, ?_⟩, ⟨?_, ?_⟩, ⟨?_, ?_⟩, ⟨?_, ?_⟩, ⟨?_, ?_⟩,
    by decide⟩ <;>
  · intros
    simp [setAnalysisResult, *]

/-- Claim C7 witness: merging a triage update into the concrete store with
note and trials set replaces triage and keeps note. -/
theorem c7_merge_replaces_only_named_keys_witness :
    (setAnalysisResult ⟨none, none, none, none, some 7, none, some 8, none⟩
      { triage := some (some 3) }).triage = some 3 ∧
    (setAnalysisResult ⟨none, none, none, none, some 7, none, some 8, none⟩
      { triage := some (some 3) }).note = some 7 := by
  obtain ⟨-, -, -, ⟨-, htr⟩, ⟨hnote, -⟩, -, -, -, -⟩ :=
    c7_merge_replaces_only_named_keys
      ⟨none, none, none, none, some 7, none, some 8, none⟩ { triage := some (some 3) }
  exact ⟨htr (some 3) rfl, hnote rfl⟩

/-- Claim C8: when the guarded submission's create-job request fails
(network error or non-ok HTTP status), no job identifier is written, the
store remains cleared (jobId, status, result all null), and exactly the
one request was issued (no retry). -/
theorem c8_submit_failure_leaves_cleared (pd : PatientData) (s : AnalysisResult)
    (h : canSubmit pd = true) :
    (startSubmit pd s SubmitOutcome.httpError).store.jobId = none ∧
    (startSubmit pd s SubmitOutcome.httpError).store.status = none ∧
    (startSubmit pd s SubmitOutcome.httpError).store.result = none ∧
    (startSubmit pd s SubmitOutcome.httpError).requests = [buildPayload pd] := by
  simp [startSubmit, h, clearPatch, setAnalysisResult]

/-- Claim C8 witness: concrete failed submission of a valid patient record
over a populated store. -/
theorem c8_submit_failure_leaves_cleared_witness :
    canSubmit ⟨some 72, some 24, "M", ["scan.nii"]⟩ = true ∧
    ((startSubmit ⟨some 72, some 24, "M", ["scan.nii"]⟩ initialAnalysisResult
        SubmitOutcome.httpError).store.jobId = none ∧
     (startSubmit ⟨some 72, some 24, "M", ["scan.nii"]⟩ initialAnalysisResult
        SubmitOutcome.httpError).store.status = none ∧
     (startSubmit ⟨some 72, some 24, "M", ["scan.nii"]⟩ initialAnalysisResult
        SubmitOutcome.httpError).store.result = none ∧
     (startSubmit ⟨some 72, some 24, "M", ["scan.nii"]⟩ initialAnalysisResult
        SubmitOutcome.httpError).requests
       = [buildPayload ⟨some 72, some 24, "M", ["scan.nii"]⟩]) :=
  ⟨by decide, c8_submit_failure_leaves_cleared ⟨some 72, some 24, "M", ["scan.nii"]⟩
    initialAnalysisResult (by decide)⟩

/-- Claim C9: a guarded submission issues exactly one create-job request,
whose payload carries the selected files, a moca total defaulting a
missing score to 24, and age (defaulting to 70) plus sex. -/
theorem c9_submit_payload (pd : PatientData) (s : AnalysisResult) (o : SubmitOutcome)
    (h : canSubmit pd = true) :
    (startSubmit pd s o).requests = [buildPayload pd] ∧
    (pd.moca = none → (buildPayload pd).mocaTotal = 24) ∧
    (∀ m, pd.moca = some m → (buildPayload pd).mocaTotal = m) ∧
    (pd.age = none → (buildPayload pd).metaAge = 70) ∧
    (∀ a, pd.age = some a → (buildPayload pd).metaAge = a) ∧
    (buildPayload pd).files = pd.files ∧
    (buildPayload pd).metaSex = pd.sex := by
  refine ⟨by cases o <;> simp [startSubmit, h], ?_, ?_, ?_, ?_, rfl, rfl⟩ <;>
  · intros
    simp [buildPayload, *]

/-- Claim C9 witness: submitting with neither moca nor age entered issues
one request with the 24 / 70 defaults. -/
theorem c9_submit_payload_witness :
    canSubmit ⟨none, none, "F", ["f"]⟩ = true ∧
    (startSubmit ⟨none, none, "F", ["f"]⟩ initialAnalysisResult
      (SubmitOutcome.ok "job-1")).requests = [buildPayload ⟨none, none, "F", ["f"]⟩] ∧
    (buildPayload ⟨none, none, "F", ["f"]⟩).mocaTotal = 24 ∧
    (buildPayload ⟨none, none, "F", ["f"]⟩).metaAge = 70 := by
  have h := c9_submit_payload ⟨none, none, "F", ["f"]⟩ initialAnalysisResult
    (SubmitOutcome.ok "job-1") (by decide)
  exact ⟨by decide, h.1, h.2.1 rfl, h.2.2.2.1 rfl⟩

/-- Claim C10: both store merges are idempotent and have the empty update
object as identity: merging the same update twice equals merging it once,
and merging the empty update leaves the state unchanged. -/
theorem c10_merge_idempotent_identity (s : AnalysisResult) (r : AnalysisPatch)
    (pd : PatientData) (q : PatientPatch) :
    setAnalysisResult (setAnalysisResult s r) r = setAnalysisResult s r ∧
    setAnalysisResult s {} = s ∧
    setPatientData (setPatientData pd q) q = setPatientData pd q ∧
    setPatientData pd {} = pd := by
  refine ⟨?_, rfl, ?_, rfl⟩ <;>
    simp [setAnalysisResult, setPatientData, getD_getD]

theorem derivedMatch_status (st : AnalysisResult) (x : Option JobStatus)
    (h : derivedMatch st) :
    derivedMatch (setAnalysisResult st { status := some x }) := by
  intro doc hdoc
  simp only [setAnalysisResult, Option.getD_none] at hdoc ⊢
  exact h doc hdoc

theorem derivedMatch_aggregate_store (st : AnalysisResult) (doc : ResultDoc) :
    derivedMatch (setAnalysisResult st (aggregatePatch doc)) := by
  intro d hd
  simp [setAnalysisResult, aggregatePatch] at hd
  subst hd
  simp [setAnalysisResult, aggregatePatch]

theorem derivedMatch_clearJob (st : AnalysisResult) (j : String) :
    derivedMatch (setAnalysisResult (setAnalysisResult st clearPatch)
      { jobId := some (some j) }) := by
  intro d hd
  simp [setAnalysisResult, clearPatch] at hd

theorem derivedMatch_step (s : SessionState) (e : Event) (h : derivedMatch s.store) :
    derivedMatch (step s e).store := by
  cases e with
  | tick =>
      cases hI : s.intervalJob <;> simpa [step, hI] using h
  | statusArrive j st =>
      by_cases hm : j ∈ s.pendingStatus
      · by_cases hc : st.status = "completed" <;>
          simpa [step, hm, hc] using derivedMatch_status s.store (some st) h
      · simpa [step, hm] using h
  | statusFail j =>
      by_cases hm : j ∈ s.pendingStatus <;> simpa [step, hm] using h
  | resultArrive j doc =>
      by_cases hm : j ∈ s.pendingResult
      · simpa [step, hm] using derivedMatch_aggregate_store s.store doc
      · simpa [step, hm] using h
  | resultFail j =>
      by_cases hm : j ∈ s.pendingResult <;> simpa [step, hm] using h
  | newJob j =>
      simpa [step] using derivedMatch_clearJob s.store j

theorem derivedMatch_run (evs : List Event) :
    ∀ s : SessionState, derivedMatch s.store → derivedMatch (run s evs).store := by
  induction evs with
  | nil => intro s h; exact h
  | cons e rest ih => intro s h; exact ih (step s e) (derivedMatch_step s e h)

/-- Claim C1: the poll handler never compares a response's job identifier
against the store's current jobId, so a late-arriving response for a
superseded job DOES mutate the store.  This theorem evaluates the code at
the failing schedules: (first trace) job A's status response arrives after
job B became active and its status is written into the store (which held
status null after B's submission); (second trace) job A's result response
arrives after job B became active: A's result and derived fields are
written into the store and, worse, the clearInterval branch releases B's
(the currently active) interval. -/
theorem c1_stale_response_mutates_store :
    ((run initialSession [Event.newJob "A", Event.newJob "B"]).store.status = none ∧
     (run initialSession [Event.newJob "A", Event.newJob "B",
        Event.statusArrive "A" ⟨"running", 50⟩]).store.jobId = some "B" ∧
     (run initialSession [Event.newJob "A", Event.newJob "B",
        Event.statusArrive "A" ⟨"running", 50⟩]).store.status = some ⟨"running", 50⟩) ∧
    ((run initialSession [Event.newJob "A", Event.statusArrive "A" ⟨"completed", 90⟩,
        Event.newJob "B", Event.resultArrive "A" ⟨1, 2, 3, 4, 5⟩]).store.jobId = some "B" ∧
     (run initialSession [Event.newJob "A", Event.statusArrive "A" ⟨"completed", 90⟩,
        Event.newJob "B", Event.resultArrive "A" ⟨1, 2, 3, 4, 5⟩]).store.result
       = some ⟨1, 2, 3, 4, 5⟩ ∧
     (run initialSession [Event.newJob "A", Event.statusArrive "A" ⟨"completed", 90⟩,
        Event.newJob "B", Event.resultArrive "A" ⟨1, 2, 3, 4, 5⟩]).store.triage = some 1 ∧
     (run initialSession [Event.newJob "A", Event.statusArrive "A" ⟨"completed", 90⟩,
        Event.newJob "B", Event.resultArrive "A" ⟨1, 2, 3, 4, 5⟩]).intervalJob = none) := by
  decide

/-- Claim C2 counterexample: after a poll observes status "failed" the
interval is NOT cleared (the poll handler has no branch for "failed"), and
the next tick issues a further status request for that same job. -/
theorem c2_failed_does_not_stop_timer :
    (run initialSession [Event.newJob "A",
      Event.statusArrive "A" ⟨"failed", 40⟩]).store.status = some ⟨"failed", 40⟩ ∧
    (run initialSession [Event.newJob "A",
      Event.statusArrive "A" ⟨"failed", 40⟩]).intervalJob = some "A" ∧
    (step (run initialSession [Event.newJob "A", Event.statusArrive "A" ⟨"failed", 40⟩])
      Event.tick).statusLog = ["A", "A"] := by
  decide

/-- Claim C2 amended: on observing "completed" the aggregator (result
fetch) is invoked, and the interval is cleared once the result response
arrives; on observing "failed" the code neither clears the interval nor
invokes the aggregator — polling simply continues. -/
theorem c2_terminal_handling (s : SessionState) (j : String) (st : JobStatus)
    (doc : ResultDoc) :
    (st.status = "completed" → j ∈ s.pendingStatus →
      (step s (Event.statusArrive j st)).resultLog = s.resultLog ++ [j]) ∧
    (j ∈ s.pendingResult → (step s (Event.resultArrive j doc)).intervalJob = none) ∧
    (st.status = "failed" →
      (step s (Event.statusArrive j st)).intervalJob = s.intervalJob ∧
      (step s (Event.statusArrive j st)).resultLog = s.resultLog) := by
  refine ⟨?_, ?_, ?_⟩
  · intro hc hm
    simp [step, hm, hc]
  · intro hm
    simp [step, hm]
  · intro hf
    have hc : ¬ st.status = "completed" := by rw [hf]; decide
    by_cases hm : j ∈ s.pendingStatus
    · simp [step, hm, hc]
    · simp [step, hm]

/-- Claim C2 amended witness: in the concrete completed run, the arrival
of the result response clears the interval. -/
theorem c2_terminal_handling_witness :
    (step (run initialSession [Event.newJob "A", Event.statusArrive "A" ⟨"completed", 80⟩])
      (Event.resultArrive "A" ⟨1, 2, 3, 4, 5⟩)).intervalJob = none :=
  (c2_terminal_handling
    (run initialSession [Event.newJob "A", Event.statusArrive "A" ⟨"completed", 80⟩])
    "A" ⟨"completed", 80⟩ ⟨1, 2, 3, 4, 5⟩).2.1 (by decide)

/-- Claim C3 counterexample: complete job A, then submit job B.  The
submission clears only jobId/status/result, so the store is left with
result unset while all five derived fields still hold job A's values — a
reachable state in which the derived fields are set but NOT from the same
snapshot as the (cleared) result field. -/
theorem c3_stale_derived_after_resubmit :
    (run initialSession [Event.newJob "A", Event.statusArrive "A" ⟨"completed", 100⟩,
      Event.resultArrive "A" ⟨1, 2, 3, 4, 5⟩, Event.newJob "B"]).store.result = none ∧
    (run initialSession [Event.newJob "A", Event.statusArrive "A" ⟨"completed", 100⟩,
      Event.resultArrive "A" ⟨1, 2, 3, 4, 5⟩, Event.newJob "B"]).store.triage = some 1 ∧
    (run initialSession [Event.newJob "A", Event.statusArrive "A" ⟨"completed", 100⟩,
      Event.resultArrive "A" ⟨1, 2, 3, 4, 5⟩, Event.newJob "B"]).store.note = some 2 ∧
    (run initialSession [Event.newJob "A", Event.statusArrive "A" ⟨"completed", 100⟩,
      Event.resultArrive "A" ⟨1, 2, 3, 4, 5⟩, Event.newJob "B"]).store.jobId = some "B" := by
  decide

/-- Claim C3 amended: the aggregation writes result together with all five
derived fields in one single partial merge, so in every reachable store
state in which result IS set, the five derived fields are set from exactly
that document (what can go stale is only the converse: result unset with
leftover derived fields, see the counterexample). -/
theorem c3_result_set_implies_derived_match (evs : List Event) (doc : ResultDoc)
    (h : (run initialSession evs).store.result = some doc) :
    (run initialSession evs).store.triage = some doc.triage ∧
    (run initialSession evs).store.note = some doc.note ∧
    (run initialSession evs).store.citations = some doc.citations ∧
    (run initialSession evs).store.trials = some doc.trials ∧
    (run initialSession evs).store.treatment_recommendations
      = some doc.treatment_recommendations :=
  derivedMatch_run evs initialSession
    (fun d hd => by simp [initialSession, initialAnalysisResult] at hd) doc h

/-- Claim C3 amended witness: after job A's aggregation the store's result
and all five derived fields hold job A's document. -/
theorem c3_result_set_implies_derived_match_witness :
    (run initialSession [Event.newJob "A", Event.statusArrive "A" ⟨"completed", 100⟩,
      Event.resultArrive "A" ⟨1, 2, 3, 4, 5⟩]).store.result = some ⟨1, 2, 3, 4, 5⟩ ∧
    ((run initialSession [Event.newJob "A", Event.statusArrive "A" ⟨"completed", 100⟩,
        Event.resultArrive "A" ⟨1, 2, 3, 4, 5⟩]).store.triage = some 1 ∧
     (run initialSession [Event.newJob "A", Event.statusArrive "A" ⟨"completed", 100⟩,
        Event.resultArrive "A" ⟨1, 2, 3, 4, 5⟩]).store.note = some 2 ∧
     (run initialSession [Event.newJob "A", Event.statusArrive "A" ⟨"completed", 100⟩,
        Event.resultArrive "A" ⟨1, 2, 3, 4, 5⟩]).store.citations = some 3 ∧
     (run initialSession [Event.newJob "A", Event.statusArrive "A" ⟨"completed", 100⟩,
        Event.resultArrive "A" ⟨1, 2, 3, 4, 5⟩]).store.trials = some 4 ∧
     (run initialSession [Event.newJob "A", Event.statusArrive "A" ⟨"completed", 100⟩,
        Event.resultArrive "A" ⟨1, 2, 3, 4, 5⟩]).store.treatment_recommendations = some 5) :=
  ⟨by decide,
   c3_result_set_implies_derived_match
     [Event.newJob "A", Event.statusArrive "A" ⟨"completed", 100⟩,
      Event.resultArrive "A" ⟨1, 2, 3, 4, 5⟩] ⟨1, 2, 3, 4, 5⟩ (by decide)⟩

/-- Claim C4 counterexample: with a previous job's result populated in the
store (here job A's aggregated result with triage 1, note 2, ...),
submitting a new job B clears only jobId, status and result: triage and
note still hold job A's values after B's jobId is written. -/
theorem c4_derived_not_cleared :
    (run initialSession [Event.newJob "A", Event.statusArrive "A" ⟨"completed", 100⟩,
      Event.resultArrive "A" ⟨1, 2, 3, 4, 5⟩]).store.result = some ⟨1, 2, 3, 4, 5⟩ ∧
    (startSubmit ⟨some 72, some 24, "M", ["scan.nii"]⟩
      (run initialSession [Event.newJob "A", Event.statusArrive "A" ⟨"completed", 100⟩,
        Event.resultArrive "A" ⟨1, 2, 3, 4, 5⟩]).store
      (SubmitOutcome.ok "B")).store.jobId = some "B" ∧
    (startSubmit ⟨some 72, some 24, "M", ["scan.nii"]⟩
      (run initialSession [Event.newJob "A", Event.statusArrive "A" ⟨"completed", 100⟩,
        Event.resultArrive "A" ⟨1, 2, 3, 4, 5⟩]).store
      (SubmitOutcome.ok "B")).store.triage = some 1 ∧
    (startSubmit ⟨some 72, some 24, "M", ["scan.nii"]⟩
      (run initialSession [Event.newJob "A", Event.statusArrive "A" ⟨"completed", 100⟩,
        Event.resultArrive "A" ⟨1, 2, 3, 4, 5⟩]).store
      (SubmitOutcome.ok "B")).store.note = some 2 := by
  decide

/-- Claim C4 amended: submitting a new job clears the previous jobId,
status and result before the new jobId is written, but leaves triage,
note, citations, trials and treatment_recommendations untouched. -/
theorem c4_submit_clears_core_fields (pd : PatientData) (s : AnalysisResult) (j : String)
    (h : canSubmit pd = true) :
    (startSubmit pd s (SubmitOutcome.ok j)).store.jobId = some j ∧
    (startSubmit pd s (SubmitOutcome.ok j)).store.status = none ∧
    (startSubmit pd s (SubmitOutcome.ok j)).store.result = none ∧
    (startSubmit pd s (SubmitOutcome.ok j)).store.triage = s.triage ∧
    (startSubmit pd s (SubmitOutcome.ok j)).store.note = s.note ∧
    (startSubmit pd s (SubmitOutcome.ok j)).store.citations = s.citations ∧
    (startSubmit pd s (SubmitOutcome.ok j)).store.trials = s.trials ∧
    (startSubmit pd s (SubmitOutcome.ok j)).store.treatment_recommendations
      = s.treatment_recommendations := by
  simp [startSubmit, h, clearPatch, setAnalysisResult]

/-- Claim C4 amended witness: concrete resubmission over a fully populated
store. -/
theorem c4_submit_clears_core_fields_witness :
    canSubmit ⟨some 72, some 24, "M", ["scan.nii"]⟩ = true ∧
    ((startSubmit ⟨some 72, some 24, "M", ["scan.nii"]⟩
        ⟨some "A", some ⟨"completed", 100⟩, some ⟨1, 2, 3, 4, 5⟩,
          some 1, some 2, some 3, some 4, some 5⟩
        (SubmitOutcome.ok "B")).store.jobId = some "B" ∧
     (startSubmit ⟨some 72, some 24, "M", ["scan.nii"]⟩
        ⟨some "A", some ⟨"completed", 100⟩, some ⟨1, 2, 3, 4, 5⟩,
          some 1, some 2, some 3, some 4, some 5⟩
        (SubmitOutcome.ok "B")).store.status = none ∧
     (startSubmit ⟨some 72, some 24, "M", ["scan.nii"]⟩
        ⟨some "A", some ⟨"completed", 100⟩, some ⟨1, 2, 3, 4, 5⟩,
          some 1, some 2, some 3, some 4, some 5⟩
        (SubmitOutcome.ok "B")).store.result = none ∧
     (startSubmit ⟨some 72, some 24, "M", ["scan.nii"]⟩
        ⟨some "A", some ⟨"completed", 100⟩, some ⟨1, 2, 3, 4, 5⟩,
          some 1, some 2, some 3, some 4, some 5⟩
        (SubmitOutcome.ok "B")).store.triage
       = (⟨some "A", some ⟨"completed", 100⟩, some ⟨1, 2, 3, 4, 5⟩,
            some 1, some 2, some 3, some 4, some 5⟩ : AnalysisResult).triage ∧
     (startSubmit ⟨some 72, some 24, "M", ["scan.nii"]⟩
        ⟨some "A", some ⟨"completed", 100⟩, some ⟨1, 2, 3, 4, 5⟩,
          some 1, some 2, some 3, some 4, some 5⟩
        (SubmitOutcome.ok "B")).store.note
       = (⟨some "A", some ⟨"completed", 100⟩, some ⟨1, 2, 3, 4, 5⟩,
            some 1, some 2, some 3, some 4, some 5⟩ : AnalysisResult).note ∧
     (startSubmit ⟨some 72, some 24, "M", ["scan.nii"]⟩
        ⟨some "A", some ⟨"completed", 100⟩, some ⟨1, 2, 3, 4, 5⟩,
          some 1, some 2, some 3, some 4, some 5⟩
        (SubmitOutcome.ok "B")).store.citations
       = (⟨some "A", some ⟨"completed", 100⟩, some ⟨1, 2, 3, 4, 5⟩,
            some 1, some 2, some 3, some 4, some 5⟩ : AnalysisResult).citations ∧
     (startSubmit ⟨some 72, some 24, "M", ["scan.nii"]⟩
        ⟨some "A", some ⟨"completed", 100⟩, some ⟨1, 2, 3, 4, 5⟩,
          some 1, some 2, some 3, some 4, some 5⟩
        (SubmitOutcome.ok "B")).store.trials
       = (⟨some "A", some ⟨"completed", 100⟩, some ⟨1, 2, 3, 4, 5⟩,
            some 1, some 2, some 3, some 4, some 5⟩ : AnalysisResult).trials ∧
     (startSubmit ⟨some 72, some 24, "M", ["scan.nii"]⟩
        ⟨some "A", some ⟨"completed", 100⟩, some ⟨1, 2, 3, 4, 5⟩,
          some 1, some 2, some 3, some 4, some 5⟩
        (SubmitOutcome.ok "B")).store.treatment_recommendations
       = (⟨some "A", some ⟨"completed", 100⟩, some ⟨1, 2, 3, 4, 5⟩,
            some 1, some 2, some 3, some 4, some 5⟩ : AnalysisResult).treatment_recommendations) :=
  ⟨by decide,
   c4_submit_clears_core_fields ⟨some 72, some 24, "M", ["scan.nii"]⟩
     ⟨some "A", some ⟨"completed", 100⟩, some ⟨1, 2, 3, 4, 5⟩,
       some 1, some 2, some 3, some 4, some 5⟩ "B" (by decide)⟩

/-- Claim C6 counterexample: with two overlapping in-flight polls (the
poll takes longer than the 2-second interval), both responses observe
"completed", both issue a result fetch, and both result responses are
merged: the aggregation runs twice for the single job identifier A. -/
theorem c6_aggregation_invoked_twice :
    (run initialSession [Event.newJob "A", Event.tick,
      Event.statusArrive "A" ⟨"completed", 100⟩, Event.statusArrive "A" ⟨"completed", 100⟩,
      Event.resultArrive "A" ⟨1, 2, 3, 4, 5⟩,
      Event.resultArrive "A" ⟨1, 2, 3, 4, 5⟩]).resultLog = ["A", "A"] ∧
    (run initialSession [Event.newJob "A", Event.tick,
      Event.statusArrive "A" ⟨"completed", 100⟩, Event.statusArrive "A" ⟨"completed", 100⟩,
      Event.resultArrive "A" ⟨1, 2, 3, 4, 5⟩,
      Event.resultArrive "A" ⟨1, 2, 3, 4, 5⟩]).mergeLog = ["A", "A"] := by
  decide

theorem run_rounds (j : String) (sts : List JobStatus) :
    ∀ (s : SessionState) (rl0 ml0 : List String),
      (∀ st ∈ sts, st.status ≠ "completed") →
      s.intervalJob = some j → s.pendingStatus = [j] → s.pendingResult = [] →
      s.resultLog = rl0 → s.mergeLog = ml0 →
      ∃ store' slog, run s (nonTerminalRounds j sts)
        = ⟨store', some j, [j], [], slog, rl0, ml0⟩ := by
  induction sts with
  | nil =>
      intro s rl0 ml0 h h1 h2 h3 h4 h5
      refine ⟨s.store, s.statusLog, ?_⟩
      rw [show nonTerminalRounds j [] = [] from rfl, run_nil,
        ← h1, ← h2, ← h3, ← h4, ← h5]
  | cons st rest ih =>
      intro s rl0 ml0 h h1 h2 h3 h4 h5
      have hst : ¬ st.status = "completed" := h st (List.mem_cons_self st rest)
      have hrest : ∀ x ∈ rest, x.status ≠ "completed" :=
        fun x hx => h x (List.mem_cons_of_mem st hx)
      have i1 : (step (step s (Event.statusArrive j st)) Event.tick).intervalJob
          = some j := by
        simp [step, h1, h2, hst, List.erase_cons_head]
      have i2 : (step (step s (Event.statusArrive j st)) Event.tick).pendingStatus
          = [j] := by
        simp [step, h1, h2, hst, List.erase_cons_head]
      have i3 : (step (step s (Event.statusArrive j st)) Event.tick).pendingResult
          = [] := by
        simp [step, h1, h2, h3, hst, List.erase_cons_head]
      have i4 : (step (step s (Event.statusArrive j st)) Event.tick).resultLog = rl0 := by
        simp [step, h1, h2, h4, hst, List.erase_cons_head]
      have i5 : (step (step s (Event.statusArrive j st)) Event.tick).mergeLog = ml0 := by
        simp [step, h1, h2, h5, hst, List.erase_cons_head]
      obtain ⟨store', slog, hkey⟩ := ih _ rl0 ml0 hrest i1 i2 i3 i4 i5
      exact ⟨store', slog, hkey⟩

/-- Claim C6 amended: every observed "completed" status triggers a result
fetch, so when the poll responses are handled sequentially (each response,
including its result fetch, resolves before the next tick fires, as in the
reference 2-second interval with fast responses), the aggregation is
invoked exactly once per job identifier, on the first observed "completed"
status, after which the interval is cleared; with overlapping in-flight
polls it can run more than once (see the counterexample). -/
theorem c6_single_aggregation_sequential (j : String) (sts : List JobStatus)
    (stc : JobStatus) (doc : ResultDoc)
    (h : ∀ st ∈ sts, st.status ≠ "completed") (hc : stc.status = "completed") :
    (run initialSession ([Event.newJob j] ++ nonTerminalRounds j sts
        ++ [Event.statusArrive j stc, Event.resultArrive j doc])).resultLog = [j] ∧
    (run initialSession ([Event.newJob j] ++ nonTerminalRounds j sts
        ++ [Event.statusArrive j stc, Event.resultArrive j doc])).mergeLog = [j] ∧
    (run initialSession ([Event.newJob j] ++ nonTerminalRounds j sts
        ++ [Event.statusArrive j stc, Event.resultArrive j doc])).intervalJob = none := by
  obtain ⟨store', slog, hrun⟩ :=
    run_rounds j sts (run initialSession [Event.newJob j]) [] [] h rfl rfl rfl rfl rfl
  have hfinal : run initialSession ([Event.newJob j] ++ nonTerminalRounds j sts
      ++ [Event.statusArrive j stc, Event.resultArrive j doc])
      = step (step ⟨store', some j, [j], [], slog, [], []⟩ (Event.statusArrive j stc))
          (Event.resultArrive j doc) := by
    rw [run_append, run_append, hrun]
    rfl
  rw [hfinal]
  have h1 : step (⟨store', some j, [j], [], slog, [], []⟩ : SessionState)
      (Event.statusArrive j stc)
      = ⟨setAnalysisResult store' { status := some (some stc) },
          some j, [], [j], slog, [j], []⟩ := by
    simp [step, hc, List.erase_cons_head]
  rw [h1]
  have h2 : step (⟨setAnalysisResult store' { status := some (some stc) },
        some j, [], [j], slog, [j], []⟩ : SessionState)
      (Event.resultArrive j doc)
      = ⟨setAnalysisResult (setAnalysisResult store' { status := some (some stc) })
          (aggregatePatch doc), none, [], [], slog, [j], [j]⟩ := by
    simp [step, List.erase_cons_head]
  rw [h2]
  exact ⟨rfl, rfl, rfl⟩

/-- Claim C6 amended witness: a concrete sequential run (queued, running,
completed) aggregates exactly once. -/
theorem c6_single_aggregation_sequential_witness :
    (run initialSession ([Event.newJob "A"]
        ++ nonTerminalRounds "A" [⟨"queued", 10⟩, ⟨"running", 55⟩]
        ++ [Event.statusArrive "A" ⟨"completed", 100⟩,
            Event.resultArrive "A" ⟨1, 2, 3, 4, 5⟩])).resultLog = ["A"] ∧
    (run initialSession ([Event.newJob "A"]
        ++ nonTerminalRounds "A" [⟨"queued", 10⟩, ⟨"running", 55⟩]
        ++ [Event.statusArrive "A" ⟨"completed", 100⟩,
            Event.resultArrive "A" ⟨1, 2, 3, 4, 5⟩])).mergeLog = ["A"] ∧
    (run initialSession ([Event.newJob "A"]
        ++ nonTerminalRounds "A" [⟨"queued", 10⟩, ⟨"running", 55⟩]
        ++ [Event.statusArrive "A" ⟨"completed", 100⟩,
            Event.resultArrive "A" ⟨1, 2, 3, 4, 5⟩])).intervalJob = none :=
  c6_single_aggregation_sequential "A" [⟨"queued", 10⟩, ⟨"running", 55⟩]
    ⟨"completed", 100⟩ ⟨1, 2, 3, 4, 5⟩ (by decide) rfl

end CogniTriage
